import Mathlib

/-!
Shallow embedding of the pc-monitor dashboard client (src/static/app.js).

Numbers carried by telemetry frames are modelled as exact rationals; the
JavaScript distinction between an absent key (undefined), an explicit null,
and a numeric value is modelled by the JSVal type.  Decimal printing of
non-integral numbers is float-specific in JavaScript; this model prints
integral values exactly (the only values the claims exercise) and falls back
to the rational printer otherwise.
-/

namespace PCMon

/-- A loosely-typed JavaScript value slot holding a number, null, or nothing
(absent key, i.e. undefined). -/
inductive JSVal where
  | undef
  | jsnull
  | num (q : ℚ)
  deriving Repr, DecidableEq

/-- JavaScript truthiness of a JSVal: only a nonzero number is truthy here. -/
def JSVal.truthy : JSVal → Bool
  | .num q => q != 0
  | _ => false

/-- The idiom v || 0 used throughout the source: a falsy slot becomes 0. -/
def JSVal.orZero : JSVal → ℚ
  | .num q => q
  | _ => 0

/-- ToNumber coercion as used by arithmetic on a possibly-missing field:
undefined turns into NaN (modelled as none), null into 0. -/
def JSVal.toNumOpt : JSVal → Option ℚ
  | .undef => none
  | .jsnull => some 0
  | .num q => some q

/-- JavaScript number printing, exact on integers (the only case the
dashboard interpolates raw). -/
def jsNumRepr (q : ℚ) : String :=
  if q.den = 1 then toString q.num else toString q

/-- Template-literal interpolation of a JSVal. -/
def JSVal.interp : JSVal → String
  | .undef => "undefined"
  | .jsnull => "null"
  | .num q => jsNumRepr q

/-- Number.prototype.toFixed(0): round to the nearest integer, ties toward
the larger value. -/
def toFixed0Str (q : ℚ) : String :=
  toString (Rat.floor (q + 1/2))

/-- Number.prototype.toFixed(1). -/
def toFixed1Str (q : ℚ) : String :=
  let n := Rat.floor (q * 10 + 1/2)
  toString (n / 10) ++ "." ++ toString (n % 10)

/-- Number.prototype.toFixed(2). -/
def toFixed2Str (q : ℚ) : String :=
  let n := Rat.floor (q * 100 + 1/2)
  let m := n % 100
  toString (n / 100) ++ "." ++ (if m < 10 then "0" else "") ++ toString m

/-- The string fallback idiom s || dflt; the empty string is falsy. -/
def jsStrOr (v : Option String) (dflt : String) : String :=
  match v with
  | some s => if s = "" then dflt else s
  | none => dflt

/-! ## SlidingWindowSeries (chart data arrays)

createChart seeds each dataset with Array(60).fill(null); updateChart does
data.push(value) followed by data.shift(). -/

/-- Initial chart dataset: sixty null sentinels (createChart). -/
def chartInit : List (Option ℚ) :=
  List.replicate 60 (none : Option ℚ)

/-- Initial dual chart datasets (createDualChart). -/
def dualInit : List (Option ℚ) × List (Option ℚ) :=
  (chartInit, chartInit)

/-- updateChart: push the new value at the tail, then shift the head off. -/
def pushChart (l : List (Option ℚ)) (v : ℚ) : List (Option ℚ) :=
  (l ++ [some v]).drop 1

/-- updateDualChart: one synchronous call pushing into both datasets. -/
def pushDual (p : List (Option ℚ) × List (Option ℚ)) (v : ℚ × ℚ) :
    List (Option ℚ) × List (Option ℚ) :=
  (pushChart p.1 v.1, pushChart p.2 v.2)

/-! ## Telemetry frame (decoded inbound message)

Every top-level category is independently optional; within a category a
numeric field can be absent, null, or a number (JSVal). -/

structure CpuData where
  name : Option String := none
  usage : JSVal := .undef
  frequency : JSVal := .undef
  cores : JSVal := .undef
  threads : JSVal := .undef
  temperature : JSVal := .undef
  l2_cache_kb : JSVal := .undef
  l3_cache_kb : JSVal := .undef
  per_core : Option (List ℚ) := none
  deriving Repr, DecidableEq

structure GpuData where
  available : Bool := false
  name : Option String := none
  usage : JSVal := .undef
  temperature : JSVal := .undef
  memory_used : JSVal := .undef
  memory_total : JSVal := .undef
  memory_percent : JSVal := .undef
  graphics_clock : JSVal := .undef
  memory_clock : JSVal := .undef
  fan_speed : JSVal := .undef
  power : JSVal := .undef
  power_limit : JSVal := .undef
  deriving Repr, DecidableEq

structure MemoryData where
  percent : JSVal := .undef
  used : JSVal := .undef
  total : JSVal := .undef
  speed : JSVal := .undef
  type : Option String := none
  slots_used : JSVal := .undef
  slots_total : JSVal := .undef
  deriving Repr, DecidableEq

structure NetworkData where
  download_rate : JSVal := .undef
  upload_rate : JSVal := .undef
  deriving Repr, DecidableEq

structure PingData where
  success : Bool := false
  ping : JSVal := .undef
  deriving Repr, DecidableEq

structure DiskData where
  read_rate : JSVal := .undef
  write_rate : JSVal := .undef
  deriving Repr, DecidableEq

structure FanEntry where
  name : Option String := none
  percent : JSVal := .undef
  rpm : JSVal := .undef
  deriving Repr, DecidableEq

structure FansData where
  fans : Option (List FanEntry) := none
  deriving Repr, DecidableEq

structure ProcEntry where
  name : String := ""
  cpu_percent : JSVal := .undef
  memory_percent : JSVal := .undef
  deriving Repr, DecidableEq

structure MBData where
  product : Option String := none
  deriving Repr, DecidableEq

structure DriveEntry where
  model : Option String := none
  type : Option String := none
  size_gb : JSVal := .undef
  deriving Repr, DecidableEq

structure SystemData where
  available : Bool := false
  uptime : Option String := none
  motherboard : Option MBData := none
  drives : Option (List DriveEntry) := none
  deriving Repr, DecidableEq

structure Frame where
  cpu : Option CpuData := none
  gpu : Option GpuData := none
  memory : Option MemoryData := none
  network : Option NetworkData := none
  ping : Option PingData := none
  disk : Option DiskData := none
  fans : Option FansData := none
  processes : Option (List ProcEntry) := none
  system : Option SystemData := none
  deriving Repr, DecidableEq

/-! ## View model (rendered display state owned by the reducer) -/

structure FanView where
  name : String
  speed : String
  bar : String
  deriving Repr, DecidableEq

/-- The fans panel either shows the explicit no-data message or a list. -/
inductive FansView where
  | noData
  | items (l : List FanView)
  deriving Repr, DecidableEq

structure ProcView where
  name : String
  cpuStr : String
  memStr : String
  deriving Repr, DecidableEq

structure DriveView where
  name : String
  details : String
  size : String
  deriving Repr, DecidableEq

structure ViewModel where
  cpuName : String
  cpuUsage : String
  cpuFreq : String
  cpuCores : String
  cpuThreads : String
  cpuTemp : String
  cpuL2 : String
  cpuL3 : String
  coreBars : List ℚ
  cpuChart : List (Option ℚ)
  gpuName : String
  gpuUsage : String
  gpuTemp : String
  gpuVram : String
  gpuClock : String
  gpuMemClock : String
  gpuFan : String
  gpuPower : String
  gpuUsageGauge : ℚ
  gpuTempGauge : ℚ
  gpuVramBar : ℚ
  gpuChart : List (Option ℚ)
  memPct : String
  memUsedTotal : String
  memSpeed : String
  memType : String
  memSlots : String
  memGaugeText : String
  memGauge : ℚ
  memChart : List (Option ℚ)
  totalMemoryGB : ℚ
  netDown : String
  netUp : String
  netChartDown : List (Option ℚ)
  netChartUp : List (Option ℚ)
  pingValue : String
  diskRead : String
  diskWrite : String
  diskChartRead : List (Option ℚ)
  diskChartWrite : List (Option ℚ)
  fansList : FansView
  processList : List ProcView
  sysUptime : String
  sysMbModel : String
  sysDrives : List DriveView
  deriving Repr, DecidableEq

/-! ## Reducer helpers -/

/-- A category guard: if (data.cat) then write the field, else leave it. -/
def catGate {α β : Type} (o : Option α) (f : α → β) (dflt : β) : β :=
  match o with
  | some x => f x
  | none => dflt

/-- The GPU guard: if (data.gpu && data.gpu.available). -/
def gpuGate {β : Type} (g : Option GpuData) (f : GpuData → β) (dflt : β) : β :=
  match g with
  | some gg => if gg.available then f gg else dflt
  | none => dflt

/-- The system guard: updateSystemInfo returns early unless system.available. -/
def sysGate {β : Type} (s : Option SystemData) (f : SystemData → β) (dflt : β) : β :=
  match s with
  | some ss => if ss.available then f ss else dflt
  | none => dflt

/-- Interpolation of a possibly absent string field. -/
def jsInterpOptStr (v : Option String) : String :=
  match v with
  | some s => s
  | none => "undefined"

/-- field?.toFixed(1) || 0 as interpolated (optional chaining then fallback). -/
def fix1OrZeroStr : JSVal → String
  | .num q => toFixed1Str q
  | _ => "0"

/-- field?.toFixed(0) || 0 as interpolated. -/
def fix0OrZeroStr : JSVal → String
  | .num q => toFixed0Str q
  | _ => "0"

/-- Math.min(slots_total, 4) as interpolated: null coerces to 0, an absent
value to NaN. -/
def jsMin4Str : JSVal → String
  | .num t => jsNumRepr (min t 4)
  | .jsnull => "0"
  | .undef => "NaN"

/-! ## Per-category reducer stages (updateDashboard branches) -/

/-- The CPU branch of updateDashboard. -/
def applyCpuOpt (st : ViewModel) (c : Option CpuData) : ViewModel :=
  { st with
    cpuName := catGate c (fun cc => jsStrOr cc.name "CPU") st.cpuName
    cpuUsage := catGate c (fun cc => toFixed0Str cc.usage.orZero ++ "%") st.cpuUsage
    cpuFreq := catGate c (fun cc =>
      if cc.frequency.truthy then toFixed1Str (cc.frequency.orZero / 1000) ++ " GHz"
      else "--") st.cpuFreq
    cpuCores := catGate c (fun cc =>
      if cc.cores.truthy then jsNumRepr cc.cores.orZero else "--") st.cpuCores
    cpuThreads := catGate c (fun cc =>
      if cc.threads.truthy then jsNumRepr cc.threads.orZero else "--") st.cpuThreads
    cpuTemp := catGate c (fun cc =>
      if cc.temperature.truthy then toFixed0Str cc.temperature.orZero ++ "°C"
      else "N/A") st.cpuTemp
    cpuL2 := catGate c (fun cc =>
      if cc.l2_cache_kb.truthy then toFixed1Str (cc.l2_cache_kb.orZero / 1024) ++ " MB"
      else st.cpuL2) st.cpuL2
    cpuL3 := catGate c (fun cc =>
      if cc.l3_cache_kb.truthy then toFixed0Str (cc.l3_cache_kb.orZero / 1024) ++ " MB"
      else st.cpuL3) st.cpuL3
    coreBars := catGate c (fun cc =>
      let perCore := cc.per_core.getD []
      if perCore.length = 0 then st.coreBars
      else perCore.map (fun u => min u 100)) st.coreBars
    cpuChart := catGate c (fun cc => pushChart st.cpuChart cc.usage.orZero) st.cpuChart }

/-- The GPU branch of updateDashboard. -/
def applyGpuOpt (st : ViewModel) (g : Option GpuData) : ViewModel :=
  { st with
    gpuName := gpuGate g (fun gg => jsStrOr gg.name "GPU") st.gpuName
    gpuUsage := gpuGate g (fun gg => toFixed0Str gg.usage.orZero ++ "%") st.gpuUsage
    gpuTemp := gpuGate g (fun gg =>
      if gg.temperature.truthy then gg.temperature.interp ++ "°C" else "N/A") st.gpuTemp
    gpuVram := gpuGate g (fun gg =>
      fix1OrZeroStr gg.memory_used ++ "/" ++ fix0OrZeroStr gg.memory_total ++ " GB") st.gpuVram
    gpuClock := gpuGate g (fun gg =>
      if gg.graphics_clock.truthy then gg.graphics_clock.interp ++ " MHz" else "--") st.gpuClock
    gpuMemClock := gpuGate g (fun gg =>
      if gg.memory_clock.truthy then gg.memory_clock.interp ++ " MHz" else "--") st.gpuMemClock
    gpuFan := gpuGate g (fun gg =>
      match gg.fan_speed with
      | .jsnull => "--"
      | v => v.interp ++ "%") st.gpuFan
    gpuPower := gpuGate g (fun gg =>
      if gg.power.truthy then
        toFixed0Str gg.power.orZero ++ "/"
          ++ (match gg.power_limit with | .num q => toFixed0Str q | _ => "--") ++ " W"
      else "--") st.gpuPower
    gpuUsageGauge := gpuGate g (fun gg => min (gg.usage.orZero / 100) 1) st.gpuUsageGauge
    gpuTempGauge := gpuGate g (fun gg => min (gg.temperature.orZero / 100) 1) st.gpuTempGauge
    gpuVramBar := gpuGate g (fun gg => min gg.memory_percent.orZero 100) st.gpuVramBar
    gpuChart := gpuGate g (fun gg => pushChart st.gpuChart gg.usage.orZero) st.gpuChart }

/-- The memory branch of updateDashboard. -/
def applyMemoryOpt (st : ViewModel) (m : Option MemoryData) : ViewModel :=
  { st with
    memPct := catGate m (fun mm => toFixed0Str mm.percent.orZero ++ "%") st.memPct
    totalMemoryGB := catGate m (fun mm => mm.total.orZero) st.totalMemoryGB
    memUsedTotal := catGate m (fun mm =>
      fix1OrZeroStr mm.used ++ " / " ++ fix0OrZeroStr mm.total ++ " GB") st.memUsedTotal
    memSpeed := catGate m (fun mm =>
      if mm.speed.truthy then mm.speed.interp ++ " MHz" else "--") st.memSpeed
    memType := catGate m (fun mm => jsStrOr mm.type "--") st.memType
    memSlots := catGate m (fun mm =>
      match mm.slots_used with
      | .undef => "--"
      | v => v.interp ++ "/" ++ jsMin4Str mm.slots_total) st.memSlots
    memGauge := catGate m (fun mm => min (mm.percent.orZero / 100) 1) st.memGauge
    memGaugeText := catGate m (fun mm => toFixed0Str mm.percent.orZero ++ "%") st.memGaugeText
    memChart := catGate m (fun mm => pushChart st.memChart mm.percent.orZero) st.memChart }

/-- The network branch of updateDashboard (dual series pushed in one call). -/
def applyNetworkOpt (st : ViewModel) (n : Option NetworkData) : ViewModel :=
  { st with
    netDown := catGate n (fun nn => toFixed2Str nn.download_rate.orZero ++ " MB/s") st.netDown
    netUp := catGate n (fun nn => toFixed2Str nn.upload_rate.orZero ++ " MB/s") st.netUp
    netChartDown := catGate n (fun nn =>
      pushChart st.netChartDown nn.download_rate.orZero) st.netChartDown
    netChartUp := catGate n (fun nn =>
      pushChart st.netChartUp nn.upload_rate.orZero) st.netChartUp }

/-- The ping branch of updateDashboard. -/
def applyPingOpt (st : ViewModel) (p : Option PingData) : ViewModel :=
  { st with
    pingValue := catGate p (fun pp =>
      if pp.success && (pp.ping != JSVal.jsnull) then pp.ping.interp ++ " ms"
      else "--") st.pingValue }

/-- The disk branch of updateDashboard (dual series pushed in one call). -/
def applyDiskOpt (st : ViewModel) (d : Option DiskData) : ViewModel :=
  { st with
    diskRead := catGate d (fun dd => toFixed2Str dd.read_rate.orZero ++ " MB/s") st.diskRead
    diskWrite := catGate d (fun dd => toFixed2Str dd.write_rate.orZero ++ " MB/s") st.diskWrite
    diskChartRead := catGate d (fun dd =>
      pushChart st.diskChartRead dd.read_rate.orZero) st.diskChartRead
    diskChartWrite := catGate d (fun dd =>
      pushChart st.diskChartWrite dd.write_rate.orZero) st.diskChartWrite }

/-- One fan row of updateFansList. -/
def renderFan (fan : FanEntry) : FanView :=
  let speedDisplay :=
    match fan.percent with
    | .jsnull =>
      match fan.rpm with
      | .jsnull => "--"
      | r => r.interp ++ " RPM"
    | p =>
      p.interp ++ "%" ++ (match fan.rpm with | .jsnull => "" | r => r.interp ++ " RPM")
  { name := jsInterpOptStr fan.name
    speed := speedDisplay
    bar := (match fan.percent with | .jsnull => "0" | p => p.interp) ++ "%" }

/-- updateFansList: an empty list renders the explicit no-data message,
otherwise the list is fully replaced. -/
def applyFansOpt (st : ViewModel) (f : Option FansData) : ViewModel :=
  { st with
    fansList := catGate f (fun fd =>
      let fans := fd.fans.getD []
      if fans.length = 0 then FansView.noData
      else FansView.items (fans.map renderFan)) st.fansList }

/-- memoryMB = memory_percent / 100 * totalMemoryGB * 1024. -/
def procMemoryMB (memPct totalGB : ℚ) : ℚ :=
  memPct / 100 * totalGB * 1024

/-- At or above 1024 MB: GB with one decimal; below: MB rounded to integer. -/
def memDisplayOfMB (mb : ℚ) : String :=
  if mb ≥ 1024 then toFixed1Str (mb / 1024) ++ " GB" else toFixed0Str mb ++ " MB"

/-- One row of updateProcessList; p.cpu_percent.toFixed(1) raises a TypeError
when the field is absent or null, which aborts the whole row map. -/
def renderProc (totalGB : ℚ) (p : ProcEntry) : Except Unit ProcView :=
  let memStr :=
    match p.memory_percent.toNumOpt with
    | some m => memDisplayOfMB (procMemoryMB m totalGB)
    | none => "NaN MB"
  match p.cpu_percent with
  | .num q => .ok { name := p.name, cpuStr := toFixed1Str q ++ "%", memStr := memStr }
  | _ => .error ()

/-- filtered.map(...) : mapping stops at the first row that raises; on
success the joined rows replace the list. -/
def renderAll (totalGB : ℚ) : List ProcEntry → Except Unit (List ProcView)
  | [] => .ok []
  | p :: rest =>
    match renderProc totalGB p with
    | .error e => .error e
    | .ok v =>
      match renderAll totalGB rest with
      | .error e => .error e
      | .ok vs => .ok (v :: vs)

/-- updateProcessList: drop the idle process by name, keep the first 8 in
producer order, then render each row. -/
def updateProcessList (processes : List ProcEntry) (totalMemoryGB : ℚ) :
    Except Unit (List ProcView) :=
  let filtered := (processes.filter (fun p => p.name != "System Idle Process")).take 8
  renderAll totalMemoryGB filtered

/-- One drive row of updateSystemInfo. -/
def renderDrive (d : DriveEntry) : DriveView :=
  let sizeStr :=
    match d.size_gb with
    | .num q =>
      if q ≥ 1000 then toFixed1Str (q / 1000) ++ " TB"
      else toString (Rat.floor (q + 1/2)) ++ " GB"
    | .jsnull => "0 GB"
    | .undef => "NaN GB"
  let model0 := jsStrOr d.model "Unknown"
  let model := if model0.length > 20 then model0.take 17 ++ "..." else model0
  { name := model, details := jsInterpOptStr d.type, size := sizeStr }

/-- updateSystemInfo, gated on system.available. -/
def applySystemOpt (st : ViewModel) (s : Option SystemData) : ViewModel :=
  { st with
    sysUptime := sysGate s (fun ss =>
      match ss.uptime with
      | some u => if u = "" then st.sysUptime else u
      | none => st.sysUptime) st.sysUptime
    sysMbModel := sysGate s (fun ss =>
      match ss.motherboard with
      | some mb => jsStrOr mb.product "--"
      | none => st.sysMbModel) st.sysMbModel
    sysDrives := sysGate s (fun ss =>
      match ss.drives with
      | some ds => if ds.length > 0 then ds.map renderDrive else st.sysDrives
      | none => st.sysDrives) st.sysDrives }

/-- updateDashboard: the category branches run in source order; a TypeError
thrown by the process branch keeps the mutations made so far, skips the
system branch, and propagates (the Bool records that it was raised). -/
def updateDashboard (st : ViewModel) (data : Frame) : ViewModel × Bool :=
  let st := applyCpuOpt st data.cpu
  let st := applyGpuOpt st data.gpu
  let st := applyMemoryOpt st data.memory
  let st := applyNetworkOpt st data.network
  let st := applyPingOpt st data.ping
  let st := applyDiskOpt st data.disk
  let st := applyFansOpt st data.fans
  match data.processes with
  | none => (applySystemOpt st data.system, false)
  | some ps =>
    match updateProcessList ps st.totalMemoryGB with
    | .ok views => (applySystemOpt { st with processList := views } data.system, false)
    | .error _ => (st, true)

/-! ## Connection client state and the message handler -/

structure ClientState where
  vm : ViewModel
  connected : Bool
  deriving Repr, DecidableEq

/-- The onmessage handler: try JSON.parse then updateDashboard; any failure
is logged and otherwise dropped, and the connection stays as it is.  The
decoder is the external JSON parser, abstracted as a function. -/
def handleMessage (decode : String → Option Frame) (st : ClientState)
    (raw : String) : ClientState :=
  match decode raw with
  | none => st
  | some frame => { st with vm := (updateDashboard st.vm frame).1 }

/-! ## View-model slices, one per dashboard panel -/

def cpuSlice (v : ViewModel) :=
  (v.cpuName, v.cpuUsage, v.cpuFreq, v.cpuCores, v.cpuThreads, v.cpuTemp,
   v.cpuL2, v.cpuL3, v.coreBars, v.cpuChart)

def gpuSlice (v : ViewModel) :=
  (v.gpuName, v.gpuUsage, v.gpuTemp, v.gpuVram, v.gpuClock, v.gpuMemClock,
   v.gpuFan, v.gpuPower, v.gpuUsageGauge, v.gpuTempGauge, v.gpuVramBar, v.gpuChart)

def memSlice (v : ViewModel) :=
  (v.memPct, v.memUsedTotal, v.memSpeed, v.memType, v.memSlots, v.memGaugeText,
   v.memGauge, v.memChart, v.totalMemoryGB)

def netSlice (v : ViewModel) :=
  (v.netDown, v.netUp, v.netChartDown, v.netChartUp)

def pingSlice (v : ViewModel) := v.pingValue

def diskSlice (v : ViewModel) :=
  (v.diskRead, v.diskWrite, v.diskChartRead, v.diskChartWrite)

def fansSlice (v : ViewModel) := v.fansList

def procSlice (v : ViewModel) := v.processList

def sysSlice (v : ViewModel) :=
  (v.sysUptime, v.sysMbModel, v.sysDrives)

/-- A concrete initial view model for concrete-input theorems; the charts
start as the sixty null sentinels and totalMemoryGB as 0, as in the
constructor. -/
def vm0 : ViewModel :=
  { cpuName := "CPU", cpuUsage := "--", cpuFreq := "--", cpuCores := "--",
    cpuThreads := "--", cpuTemp := "--", cpuL2 := "--", cpuL3 := "--",
    coreBars := [], cpuChart := chartInit,
    gpuName := "GPU", gpuUsage := "--", gpuTemp := "--", gpuVram := "--",
    gpuClock := "--", gpuMemClock := "--", gpuFan := "--", gpuPower := "--",
    gpuUsageGauge := 0, gpuTempGauge := 0, gpuVramBar := 0, gpuChart := chartInit,
    memPct := "--", memUsedTotal := "--", memSpeed := "--", memType := "--",
    memSlots := "--", memGaugeText := "--", memGauge := 0, memChart := chartInit,
    totalMemoryGB := 0,
    netDown := "--", netUp := "--", netChartDown := chartInit, netChartUp := chartInit,
    pingValue := "--",
    diskRead := "--", diskWrite := "--", diskChartRead := chartInit,
    diskChartWrite := chartInit,
    fansList := FansView.items [], processList := [],
    sysUptime := "--", sysMbModel := "--", sysDrives := [] }

/-! ## Connection lifecycle (connect, onopen, onclose, reconnect timer)

The browser event loop is modelled as a labelled transition system.  The
state records every WebSocket object ever created (by creation order), the
pending reconnect timers (each remembering the close time that scheduled
it), and the current time in milliseconds.  The type deliberately allows
many live sockets and many pending timers; that at most one of each is ever
in flight is proved, not assumed. -/

/-- Phase of one WebSocket object. -/
inductive SockPhase where
  | connecting
  | opened
  | closed
  deriving Repr, DecidableEq

/-- A closed socket never fires another event. -/
def SockPhase.live : SockPhase → Bool
  | .closed => false
  | _ => true

structure ConnState where
  socks : List SockPhase
  timers : List ℕ
  now : ℕ
  deriving Repr, DecidableEq

/-- The fixed delay of setTimeout(() => this.connect(), 2000). -/
def reconnectDelay : ℕ := 2000

/-- connect(): create a new WebSocket (connecting) with handlers attached. -/
def connect (s : ConnState) : ConnState :=
  { s with socks := s.socks ++ [SockPhase.connecting] }

/-- The constructor calls connect() exactly once. -/
def connInit : ConnState :=
  connect { socks := [], timers := [], now := 0 }

inductive CEvent where
  | sockOpened (i : ℕ)
  | sockClosed (i : ℕ)
  | sockErrored (i : ℕ)
  | timerFired (t : ℕ)
  | timePassed (d : ℕ)

/-- One event-loop step.  A live socket may open, error (onerror only
logs), or close; the onclose handler schedules exactly one reconnect timer
2000 ms out.  A pending timer may fire once its delay has elapsed, and
firing runs connect().  Time only moves forward. -/
inductive CStep : ConnState → CEvent → ConnState → Prop where
  | sockOpened (s : ConnState) (i : ℕ)
      (h : s.socks.get? i = some .connecting) :
      CStep s (.sockOpened i) { s with socks := s.socks.set i .opened }
  | sockClosed (s : ConnState) (i : ℕ) (ph : SockPhase)
      (h : s.socks.get? i = some ph) (hl : ph.live = true) :
      CStep s (.sockClosed i)
        { s with socks := s.socks.set i .closed,
                 timers := s.timers ++ [s.now] }
  | sockErrored (s : ConnState) (i : ℕ) (ph : SockPhase)
      (h : s.socks.get? i = some ph) (hl : ph.live = true) :
      CStep s (.sockErrored i) s
  | timerFired (s : ConnState) (t : ℕ) (ht : t ∈ s.timers)
      (hd : t + reconnectDelay ≤ s.now) :
      CStep s (.timerFired t) (connect { s with timers := s.timers.erase t })
  | timePassed (s : ConnState) (d : ℕ) :
      CStep s (.timePassed d) { s with now := s.now + d }

/-- States the manager can actually be in. -/
inductive ConnReachable : ConnState → Prop where
  | init : ConnReachable connInit
  | step {s : ConnState} {e : CEvent} {s2 : ConnState} :
      ConnReachable s → CStep s e s2 → ConnReachable s2

/-- Number of sockets still able to fire events. -/
def liveCount : List SockPhase → ℕ
  | [] => 0
  | p :: rest => (if p.live then 1 else 0) + liveCount rest

/-- The conserved quantity of the reconnect loop. -/
def connInv (s : ConnState) : Prop :=
  liveCount s.socks + s.timers.length = 1

/-! ## Concrete inputs used by closed theorems -/

def client0 : ClientState := { vm := vm0, connected := true }

def frameCpu42 : Frame := { cpu := some { usage := JSVal.num 42 } }

def frameEmptyCpu : Frame := { cpu := some {} }

def vmPrev : ViewModel := { vm0 with cpuUsage := "37%", cpuL2 := "5.0 MB" }

def frameBadProc : Frame :=
  { processes := some [{ name := "chrome", cpu_percent := JSVal.undef,
                         memory_percent := JSVal.num 50 }] }

def procSample : List ProcEntry :=
  [{ name := "System Idle Process", cpu_percent := .num 99, memory_percent := .num 0 },
   { name := "p1", cpu_percent := .num 1, memory_percent := .num 0 },
   { name := "p2", cpu_percent := .num 1, memory_percent := .num 0 },
   { name := "p3", cpu_percent := .num 1, memory_percent := .num 0 },
   { name := "p4", cpu_percent := .num 1, memory_percent := .num 0 },
   { name := "p5", cpu_percent := .num 1, memory_percent := .num 0 },
   { name := "p6", cpu_percent := .num 1, memory_percent := .num 0 },
   { name := "p7", cpu_percent := .num 1, memory_percent := .num 0 },
   { name := "p8", cpu_percent := .num 1, memory_percent := .num 0 },
   { name := "p9", cpu_percent := .num 1, memory_percent := .num 0 },
   { name := "p10", cpu_percent := .num 1, memory_percent := .num 0 }]

def procSampleViews : List ProcView :=
  ["p1", "p2", "p3", "p4", "p5", "p6", "p7", "p8"].map
    (fun n => { name := n, cpuStr := "1.0%", memStr := "0 MB" })

def procEntry50 : ProcEntry :=
  { name := "x", cpu_percent := .num 1, memory_percent := .num 50 }

def procView50 : ProcView :=
  { name := "x", cpuStr := "1.0%", memStr := "8.0 GB" }

def frameMemSlots : Frame :=
  { memory := some { slots_used := JSVal.num 2, slots_total := JSVal.num 6 } }

/-! ## Helper lemmas -/

theorem pushChart_length (l : List (Option ℚ)) (v : ℚ) :
    (pushChart l v).length = l.length := by
  simp [pushChart]

theorem foldl_pushChart_eq (vs : List ℚ) :
    ∀ l : List (Option ℚ),
      List.foldl pushChart l vs = (l ++ vs.map some).drop vs.length := by
  induction vs with
  | nil => intro l; simp
  | cons v vs ih =>
    intro l
    have h1 : pushChart l v = ((l ++ [some v])).drop 1 := rfl
    have h2 : (l ++ [some v]).drop 1 ++ vs.map some
        = ((l ++ [some v]) ++ vs.map some).drop 1 :=
      (List.drop_append_of_le_length (by simp)).symm
    calc List.foldl pushChart l (v :: vs)
        = List.foldl pushChart (pushChart l v) vs := rfl
      _ = ((pushChart l v) ++ vs.map some).drop vs.length := ih _
      _ = (((l ++ [some v]).drop 1 ++ vs.map some)).drop vs.length := by rw [h1]
      _ = (((l ++ [some v]) ++ vs.map some).drop 1).drop vs.length := by rw [h2]
      _ = ((l ++ [some v]) ++ vs.map some).drop (1 + vs.length) := by
            rw [List.drop_drop]
      _ = (l ++ (v :: vs).map some).drop ((v :: vs).length) := by
            simp [List.append_assoc, Nat.add_comm]

theorem foldl_pushChart_length (vs : List ℚ) (l : List (Option ℚ)) :
    (List.foldl pushChart l vs).length = l.length := by
  rw [foldl_pushChart_eq]
  simp

theorem foldl_pushDual_eq (ps : List (ℚ × ℚ)) :
    ∀ p : List (Option ℚ) × List (Option ℚ),
      List.foldl pushDual p ps =
        (List.foldl pushChart p.1 (ps.map Prod.fst),
         List.foldl pushChart p.2 (ps.map Prod.snd)) := by
  induction ps with
  | nil => intro p; simp
  | cons q ps ih =>
    intro p
    simp only [List.foldl_cons, List.map_cons, ih]
    rfl

theorem replicate_get? {α : Type} (a : α) :
    ∀ (n j : ℕ), j < n → (List.replicate n a).get? j = some a := by
  intro n
  induction n with
  | zero => intro j h; omega
  | succ n ih =>
    intro j h
    cases j with
    | zero => rfl
    | succ j => exact ih j (by omega)

theorem liveCount_set :
    ∀ (l : List SockPhase) (i : ℕ) (a b : SockPhase), l.get? i = some a →
      liveCount (l.set i b) + (if a.live then 1 else 0)
        = liveCount l + (if b.live then 1 else 0) := by
  intro l
  induction l with
  | nil => intro i a b h; simp at h
  | cons x xs ih =>
    intro i a b h
    cases i with
    | zero =>
      simp only [List.get?] at h
      injection h with h2
      subst h2
      simp only [List.set, liveCount]
      omega
    | succ i =>
      simp only [List.get?] at h
      have hx := ih i a b h
      simp only [List.set, liveCount]
      omega

theorem liveCount_append (l1 l2 : List SockPhase) :
    liveCount (l1 ++ l2) = liveCount l1 + liveCount l2 := by
  induction l1 with
  | nil => simp [liveCount]
  | cons x xs ih =>
    show (if x.live then 1 else 0) + liveCount (xs ++ l2)
        = ((if x.live then 1 else 0) + liveCount xs) + liveCount l2
    rw [ih]
    omega

theorem connInv_step (s : ConnState) (e : CEvent) (s2 : ConnState)
    (hstep : CStep s e s2) (hinv : connInv s) : connInv s2 := by
  cases hstep with
  | sockOpened i h =>
    have hc := liveCount_set s.socks i .connecting .opened h
    simp only [connInv] at hinv ⊢
    simp [SockPhase.live] at hc
    omega
  | sockClosed i ph h hl =>
    have hc := liveCount_set s.socks i ph .closed h
    rw [hl] at hc
    simp only [connInv] at hinv ⊢
    simp [SockPhase.live] at hc
    simp only [List.length_append, List.length_cons, List.length_nil]
    omega
  | sockErrored i ph h hl => exact hinv
  | timerFired t ht hd =>
    have hpos : 0 < s.timers.length := List.length_pos_of_mem ht
    have herase := List.length_erase_of_mem ht
    simp only [connInv, connect, liveCount_append] at hinv ⊢
    simp [liveCount, SockPhase.live]
    rw [herase]
    omega
  | timePassed d => exact hinv

theorem conn_reachable_inv : ∀ s, ConnReachable s → connInv s := by
  intro s hs
  induction hs with
  | init => rfl
  | step hr hstep ih => exact connInv_step _ _ _ hstep ih

theorem renderProc_name (t : ℚ) (p : ProcEntry) (v : ProcView)
    (h : renderProc t p = .ok v) : v.name = p.name := by
  unfold renderProc at h
  dsimp only at h
  cases hcpu : p.cpu_percent with
  | num q =>
    rw [hcpu] at h
    injection h with h2
    subst h2
    rfl
  | undef => rw [hcpu] at h; simp at h
  | jsnull => rw [hcpu] at h; simp at h

theorem renderAll_names (t : ℚ) :
    ∀ (l : List ProcEntry) (vs : List ProcView),
      renderAll t l = .ok vs → vs.map ProcView.name = l.map ProcEntry.name := by
  intro l
  induction l with
  | nil =>
    intro vs h
    simp only [renderAll] at h
    injection h with h2
    subst h2
    rfl
  | cons p rest ih =>
    intro vs h
    unfold renderAll at h
    cases hp : renderProc t p with
    | error e => rw [hp] at h; simp at h
    | ok v =>
      rw [hp] at h
      cases hr : renderAll t rest with
      | error e => rw [hr] at h; simp at h
      | ok vs2 =>
        rw [hr] at h
        dsimp only at h
        injection h with h2
        subst h2
        simp [List.map_cons, renderProc_name t p v hp, ih vs2 hr]

/-- The CPU slice of the reduced view model comes from the CPU stage alone. -/
theorem ud_cpuSlice (st : ViewModel) (data : Frame) :
    cpuSlice (updateDashboard st data).1 = cpuSlice (applyCpuOpt st data.cpu) := by
  unfold updateDashboard
  dsimp only
  repeat' split
  all_goals rfl

/-- The GPU slice of the reduced view model comes from the GPU stage alone. -/
theorem ud_gpuSlice (st : ViewModel) (data : Frame) :
    gpuSlice (updateDashboard st data).1 = gpuSlice (applyGpuOpt st data.gpu) := by
  unfold updateDashboard
  dsimp only
  repeat' split
  all_goals rfl

/-- The memory slice of the reduced view model comes from the memory stage
alone. -/
theorem ud_memSlice (st : ViewModel) (data : Frame) :
    memSlice (updateDashboard st data).1 = memSlice (applyMemoryOpt st data.memory) := by
  unfold updateDashboard
  dsimp only
  repeat' split
  all_goals rfl

/-- The network slice of the reduced view model comes from the network stage
alone. -/
theorem ud_netSlice (st : ViewModel) (data : Frame) :
    netSlice (updateDashboard st data).1 = netSlice (applyNetworkOpt st data.network) := by
  unfold updateDashboard
  dsimp only
  repeat' split
  all_goals rfl

/-- The ping slice of the reduced view model comes from the ping stage alone. -/
theorem ud_pingSlice (st : ViewModel) (data : Frame) :
    pingSlice (updateDashboard st data).1 = pingSlice (applyPingOpt st data.ping) := by
  unfold updateDashboard
  dsimp only
  repeat' split
  all_goals rfl

/-- The disk slice of the reduced view model comes from the disk stage alone. -/
theorem ud_diskSlice (st : ViewModel) (data : Frame) :
    diskSlice (updateDashboard st data).1 = diskSlice (applyDiskOpt st data.disk) := by
  unfold updateDashboard
  dsimp only
  repeat' split
  all_goals rfl

/-- The fans slice of the reduced view model comes from the fans stage alone. -/
theorem ud_fansSlice (st : ViewModel) (data : Frame) :
    fansSlice (updateDashboard st data).1 = fansSlice (applyFansOpt st data.fans) := by
  unfold updateDashboard
  dsimp only
  repeat' split
  all_goals rfl

/-! ## Claim theorems -/

/-- C2: every sliding-window series, single or dual, starts as sixty null
sentinels and keeps length exactly 60 under every sequence of pushes; each
push appends the new sample at the tail and evicts the head. -/
theorem series_length_always_60 :
    chartInit = List.replicate 60 none ∧
    (∀ vs : List ℚ, (List.foldl pushChart chartInit vs).length = 60) ∧
    (∀ ps : List (ℚ × ℚ),
      (List.foldl pushDual dualInit ps).1.length = 60 ∧
      (List.foldl pushDual dualInit ps).2.length = 60) ∧
    (∀ (l : List (Option ℚ)) (v : ℚ), l.length = 60 →
      pushChart l v = l.drop 1 ++ [some v]) := by
  refine ⟨rfl, ?_, ?_, ?_⟩
  · intro vs
    rw [foldl_pushChart_length]
    simp [chartInit]
  · intro ps
    rw [foldl_pushDual_eq]
    constructor <;> simp [foldl_pushChart_length, dualInit, chartInit]
  · intro l v h
    have h1 : (1 : ℕ) ≤ l.length := by omega
    simp [pushChart, List.drop_append_of_le_length h1]

/-- Witness for C2 at concrete inputs. -/
theorem series_length_always_60_witness :
    pushChart chartInit 7 = chartInit.drop 1 ++ [some 7] ∧
    (List.foldl pushChart chartInit [1, 2, 3]).length = 60 :=
  ⟨series_length_always_60.2.2.2 chartInit 7 (by decide),
   series_length_always_60.2.1 [1, 2, 3]⟩

/-- C3: after any sequence of updateDualChart calls both member series have
length 60, and each index holds either the pre-fill sentinel in both, or
the two halves of one and the same pushPair call (the call with index k in
the sequence) — the pair is pushed by the single synchronous pushDual step,
so no intermediate state with only one series advanced exists. -/
theorem dual_series_aligned (ps : List (ℚ × ℚ)) (i : ℕ) (h : i < 60) :
    (List.foldl pushDual dualInit ps).1.length = 60 ∧
    (List.foldl pushDual dualInit ps).2.length = 60 ∧
    (((List.foldl pushDual dualInit ps).1.get? i = some none ∧
      (List.foldl pushDual dualInit ps).2.get? i = some none) ∨
     (∃ (k : ℕ) (a b : ℚ), ps.get? k = some (a, b) ∧
      (List.foldl pushDual dualInit ps).1.get? i = some (some a) ∧
      (List.foldl pushDual dualInit ps).2.get? i = some (some b))) := by
  have h1 : (List.foldl pushDual dualInit ps).1
      = (chartInit ++ (ps.map Prod.fst).map some).drop ps.length := by
    rw [foldl_pushDual_eq]
    show List.foldl pushChart chartInit (ps.map Prod.fst) = _
    rw [foldl_pushChart_eq]
    simp only [List.length_map]
  have h2 : (List.foldl pushDual dualInit ps).2
      = (chartInit ++ (ps.map Prod.snd).map some).drop ps.length := by
    rw [foldl_pushDual_eq]
    show List.foldl pushChart chartInit (ps.map Prod.snd) = _
    rw [foldl_pushChart_eq]
    simp only [List.length_map]
  have hlen : chartInit.length = 60 := by simp [chartInit]
  refine ⟨?_, ?_, ?_⟩
  · rw [h1, List.length_drop, List.length_append, hlen]
    simp only [List.length_map]
    omega
  · rw [h2, List.length_drop, List.length_append, hlen]
    simp only [List.length_map]
    omega
  · by_cases hc : ps.length + i < 60
    · left
      constructor
      · rw [h1, List.get?_drop, List.get?_append (by omega)]
        exact replicate_get? none 60 (ps.length + i) hc
      · rw [h2, List.get?_drop, List.get?_append (by omega)]
        exact replicate_get? none 60 (ps.length + i) hc
    · right
      have hk : ps.length + i - 60 < ps.length := by omega
      obtain ⟨pair, hpair⟩ :
          ∃ pair, ps.get? (ps.length + i - 60) = some pair :=
        ⟨ps.get ⟨ps.length + i - 60, hk⟩, List.get?_eq_get hk⟩
      refine ⟨ps.length + i - 60, pair.1, pair.2, by rw [hpair], ?_, ?_⟩
      · rw [h1, List.get?_drop, List.get?_append_right (by omega)]
        simp only [hlen, List.get?_map, hpair]
        rfl
      · rw [h2, List.get?_drop, List.get?_append_right (by omega)]
        simp only [hlen, List.get?_map, hpair]
        rfl

/-- Witness for C3 at a concrete pair sequence and index. -/
theorem dual_series_aligned_witness :
    (List.foldl pushDual dualInit [(3, 4)]).1.length = 60 ∧
    (List.foldl pushDual dualInit [(3, 4)]).2.length = 60 ∧
    (((List.foldl pushDual dualInit [(3, 4)]).1.get? 59 = some none ∧
      (List.foldl pushDual dualInit [(3, 4)]).2.get? 59 = some none) ∨
     (∃ (k : ℕ) (a b : ℚ), [(3, 4)].get? k = some (a, b) ∧
      (List.foldl pushDual dualInit [(3, 4)]).1.get? 59 = some (some a) ∧
      (List.foldl pushDual dualInit [(3, 4)]).2.get? 59 = some (some b))) :=
  dual_series_aligned [(3, 4)] 59 (by decide)

/-- C1: evidence against the claim.  A process entry whose cpu_percent is
absent makes p.cpu_percent.toFixed(1) raise a TypeError, so the reducer
does not complete for that frame (the Bool component records the raised
exception leaving updateDashboard).  Fan entries with null percent and rpm,
by contrast, do resolve to the placeholder without raising. -/
theorem reducer_raises_on_missing_cpu_percent :
    updateProcessList [{ name := "chrome", cpu_percent := JSVal.undef,
                         memory_percent := JSVal.num 50 }] 16 = .error () ∧
    (updateDashboard vm0 frameBadProc).2 = true ∧
    (renderFan { name := some "Fan1", percent := .jsnull, rpm := .jsnull }).speed = "--" :=
  ⟨rfl, rfl, rfl⟩

/-- C4: a raw message the decoder rejects leaves the whole client state —
view model, every series and scalar including totalMemoryGB, and the
connection flag — unchanged; and no message, decodable or not, ever changes
the connection flag. -/
theorem malformed_message_is_noop (decode : String → Option Frame)
    (st : ClientState) (raw : String) (h : decode raw = none) :
    handleMessage decode st raw = st ∧
    ∀ (d2 : String → Option Frame) (st2 : ClientState) (raw2 : String),
      (handleMessage d2 st2 raw2).connected = st2.connected := by
  constructor
  · simp [handleMessage, h]
  · intro d2 st2 raw2
    unfold handleMessage
    cases d2 raw2 <;> rfl

/-- Witness for C4 at a concrete undecodable message. -/
theorem malformed_message_is_noop_witness :
    handleMessage (fun _ => none) client0 "not json" = client0 :=
  (malformed_message_is_noop (fun _ => none) client0 "not json" rfl).1

/-- C6: a frame carrying only cpu.usage = 42 updates the CPU usage display
and pushes 42 into the CPU series while every other panel slice is left
exactly as it was; and in general each absent top-level category leaves its
own view-model slice untouched. -/
theorem cpu_only_frame_leaves_rest_untouched :
    (∀ st : ViewModel,
      (updateDashboard st frameCpu42).2 = false ∧
      (updateDashboard st frameCpu42).1.cpuUsage = "42%" ∧
      (updateDashboard st frameCpu42).1.cpuChart = pushChart st.cpuChart 42 ∧
      gpuSlice (updateDashboard st frameCpu42).1 = gpuSlice st ∧
      memSlice (updateDashboard st frameCpu42).1 = memSlice st ∧
      netSlice (updateDashboard st frameCpu42).1 = netSlice st ∧
      pingSlice (updateDashboard st frameCpu42).1 = pingSlice st ∧
      diskSlice (updateDashboard st frameCpu42).1 = diskSlice st ∧
      fansSlice (updateDashboard st frameCpu42).1 = fansSlice st ∧
      procSlice (updateDashboard st frameCpu42).1 = procSlice st ∧
      sysSlice (updateDashboard st frameCpu42).1 = sysSlice st) ∧
    (∀ (st : ViewModel) (data : Frame), data.cpu = none →
      cpuSlice (updateDashboard st data).1 = cpuSlice st) ∧
    (∀ (st : ViewModel) (data : Frame), data.gpu = none →
      gpuSlice (updateDashboard st data).1 = gpuSlice st) ∧
    (∀ (st : ViewModel) (data : Frame), data.memory = none →
      memSlice (updateDashboard st data).1 = memSlice st) ∧
    (∀ (st : ViewModel) (data : Frame), data.network = none →
      netSlice (updateDashboard st data).1 = netSlice st) ∧
    (∀ (st : ViewModel) (data : Frame), data.ping = none →
      pingSlice (updateDashboard st data).1 = pingSlice st) ∧
    (∀ (st : ViewModel) (data : Frame), data.disk = none →
      diskSlice (updateDashboard st data).1 = diskSlice st) ∧
    (∀ (st : ViewModel) (data : Frame), data.fans = none →
      fansSlice (updateDashboard st data).1 = fansSlice st) ∧
    (∀ (st : ViewModel) (data : Frame), data.processes = none →
      procSlice (updateDashboard st data).1 = procSlice st) ∧
    (∀ (st : ViewModel) (data : Frame), data.system = none →
      sysSlice (updateDashboard st data).1 = sysSlice st) := by
  refine ⟨?_, ?_, ?_, ?_, ?_, ?_, ?_, ?_, ?_, ?_⟩
  · intro st
    refine ⟨rfl, ?_, rfl, rfl, rfl, rfl, rfl, rfl, rfl, rfl, rfl⟩
    have hval : (updateDashboard st frameCpu42).1.cpuUsage
        = toFixed0Str 42 ++ "%" := rfl
    rw [hval]
    with_unfolding_all rfl
  · intro st data h
    rw [ud_cpuSlice, h]
    rfl
  · intro st data h
    rw [ud_gpuSlice, h]
    rfl
  · intro st data h
    rw [ud_memSlice, h]
    rfl
  · intro st data h
    rw [ud_netSlice, h]
    rfl
  · intro st data h
    rw [ud_pingSlice, h]
    rfl
  · intro st data h
    rw [ud_diskSlice, h]
    rfl
  · intro st data h
    rw [ud_fansSlice, h]
    rfl
  · intro st data h
    unfold updateDashboard
    rw [h]
    dsimp only
    rfl
  · intro st data h
    unfold updateDashboard
    rw [h]
    dsimp only
    repeat' split
    all_goals rfl

/-- Witness for C6 at a concrete state and frame. -/
theorem cpu_only_frame_leaves_rest_untouched_witness :
    gpuSlice (updateDashboard vm0 frameCpu42).1 = gpuSlice vm0 ∧
    (updateDashboard vm0 frameCpu42).1.cpuUsage = "42%" :=
  ⟨cpu_only_frame_leaves_rest_untouched.2.2.1 vm0 frameCpu42 rfl,
   (cpu_only_frame_leaves_rest_untouched.1 vm0).2.1⟩

/-- C7: the displayed process list is the input with every entry named
System Idle Process removed and then truncated to the first 8, in producer
order; hence at most 8 rows and never the idle name. -/
theorem process_list_filter_and_cap (ps : List ProcEntry) (t : ℚ)
    (views : List ProcView) (h : updateProcessList ps t = .ok views) :
    views.map ProcView.name
      = ((ps.filter (fun p => p.name != "System Idle Process")).take 8).map
          ProcEntry.name ∧
    views.length ≤ 8 ∧
    (∀ v ∈ views, v.name ≠ "System Idle Process") := by
  unfold updateProcessList at h
  dsimp only at h
  have hn := renderAll_names t _ _ h
  refine ⟨hn, ?_, ?_⟩
  · have hlen := congrArg List.length hn
    simp only [List.length_map] at hlen
    rw [hlen]
    exact List.length_take_le 8 _
  · intro v hv
    have hvn : v.name ∈ ((ps.filter
        (fun p => p.name != "System Idle Process")).take 8).map ProcEntry.name := by
      rw [← hn]
      exact List.mem_map_of_mem _ hv
    obtain ⟨p, hp, hpe⟩ := List.mem_map.mp hvn
    have hpf : p ∈ ps.filter (fun p => p.name != "System Idle Process") :=
      List.take_subset _ _ hp
    have hne := (List.mem_filter.mp hpf).2
    rw [← hpe]
    simpa using hne

/-- Witness for C7: the idle process plus ten others yields exactly the
first eight non-idle names. -/
theorem process_list_filter_and_cap_witness :
    updateProcessList procSample 16 = .ok procSampleViews ∧
    procSampleViews.map ProcView.name
      = ((procSample.filter (fun p => p.name != "System Idle Process")).take 8).map
          ProcEntry.name ∧
    procSampleViews.length ≤ 8 :=
  ⟨by with_unfolding_all rfl,
   (process_list_filter_and_cap procSample 16 procSampleViews
      (by with_unfolding_all rfl)).1,
   (process_list_filter_and_cap procSample 16 procSampleViews
      (by with_unfolding_all rfl)).2.1⟩

/-- C8: a displayed process entry computes memoryMB as
memory_percent / 100 * totalMemoryGB * 1024, shown in GB with one decimal
at or above 1024 MB and else in MB rounded to an integer; 50 percent of
16 GB gives 8192 MB shown as 8.0 GB. -/
theorem process_memory_formula (p : ProcEntry) (t q : ℚ) (v : ProcView)
    (hm : p.memory_percent = .num q) (hv : renderProc t p = .ok v) :
    v.memStr = memDisplayOfMB (procMemoryMB q t) ∧
    procMemoryMB q t = q / 100 * t * 1024 ∧
    procMemoryMB 50 16 = 8192 ∧
    memDisplayOfMB 8192 = "8.0 GB" := by
  refine ⟨?_, rfl, by with_unfolding_all rfl, by with_unfolding_all rfl⟩
  unfold renderProc at hv
  dsimp only at hv
  rw [hm] at hv
  cases hcpu : p.cpu_percent with
  | num qc =>
    rw [hcpu] at hv
    injection hv with h2
    subst h2
    rfl
  | undef => rw [hcpu] at hv; simp at hv
  | jsnull => rw [hcpu] at hv; simp at hv

/-- Witness for C8 at the concrete 50 percent of 16 GB entry. -/
theorem process_memory_formula_witness :
    renderProc 16 procEntry50 = .ok procView50 ∧
    procView50.memStr = memDisplayOfMB (procMemoryMB 50 16) :=
  ⟨by with_unfolding_all rfl,
   (process_memory_formula procEntry50 16 50 procView50 rfl
      (by with_unfolding_all rfl)).1⟩

/-- C9 counterexample: with cpu present but usage absent, the usage display
is rewritten to the substituted numeric 0 percent (not a placeholder, and
not the prior value), and 0 is pushed into the series; a missing cache
field, in turn, keeps the prior numeric display rather than a placeholder. -/
theorem cpu_missing_usage_shows_zero :
    (updateDashboard vmPrev frameEmptyCpu).1.cpuUsage = "0%" ∧
    vmPrev.cpuUsage = "37%" ∧
    (updateDashboard vmPrev frameEmptyCpu).1.cpuChart = pushChart vmPrev.cpuChart 0 ∧
    (updateDashboard vmPrev frameEmptyCpu).1.cpuL2 = "5.0 MB" := by
  refine ⟨?_, rfl, rfl, rfl⟩
  have hval : (updateDashboard vmPrev frameEmptyCpu).1.cpuUsage
      = toFixed0Str 0 ++ "%" := rfl
  rw [hval]
  with_unfolding_all rfl

/-- C9 amended: with cpu present, a missing frequency or temperature shows
its placeholder, a missing cache field leaves the prior display untouched,
and a missing usage is substituted with 0: the display shows 0 percent and
0 is pushed into the series; a present nonzero frequency is shown in GHz. -/
theorem cpu_scalars_amended (st : ViewModel) (data : Frame) (c : CpuData)
    (h : data.cpu = some c) :
    (c.frequency.truthy = false → (updateDashboard st data).1.cpuFreq = "--") ∧
    (c.temperature.truthy = false → (updateDashboard st data).1.cpuTemp = "N/A") ∧
    (c.l2_cache_kb.truthy = false → (updateDashboard st data).1.cpuL2 = st.cpuL2) ∧
    (c.l3_cache_kb.truthy = false → (updateDashboard st data).1.cpuL3 = st.cpuL3) ∧
    (c.usage = .undef →
      (updateDashboard st data).1.cpuUsage = "0%" ∧
      (updateDashboard st data).1.cpuChart = pushChart st.cpuChart 0) ∧
    (∀ q : ℚ, c.frequency = .num q → q ≠ 0 →
      (updateDashboard st data).1.cpuFreq = toFixed1Str (q / 1000) ++ " GHz") := by
  have hs := ud_cpuSlice st data
  rw [h] at hs
  simp only [cpuSlice, Prod.mk.injEq] at hs
  obtain ⟨h1, h2, h3, h4, h5, h6, h7, h8, h9, h10⟩ := hs
  refine ⟨?_, ?_, ?_, ?_, ?_, ?_⟩
  · intro hf
    rw [h3]
    simp [applyCpuOpt, catGate, hf]
  · intro hf
    rw [h6]
    simp [applyCpuOpt, catGate, hf]
  · intro hf
    rw [h7]
    simp [applyCpuOpt, catGate, hf]
  · intro hf
    rw [h8]
    simp [applyCpuOpt, catGate, hf]
  · intro hu
    constructor
    · rw [h2]
      simp only [applyCpuOpt, catGate, hu]
      with_unfolding_all rfl
    · rw [h10]
      simp only [applyCpuOpt, catGate, hu]
      rfl
  · intro q hq hq0
    rw [h3]
    simp [applyCpuOpt, catGate, hq, JSVal.truthy, JSVal.orZero, hq0]

/-- Witness for C9 amended at the all-fields-absent cpu frame. -/
theorem cpu_scalars_amended_witness :
    (updateDashboard vm0 frameEmptyCpu).1.cpuFreq = "--" ∧
    (updateDashboard vm0 frameEmptyCpu).1.cpuTemp = "N/A" :=
  ⟨(cpu_scalars_amended vm0 frameEmptyCpu {} rfl).1 rfl,
   (cpu_scalars_amended vm0 frameEmptyCpu {} rfl).2.1 rfl⟩

/-- C10: when slots_used is defined, the slot ratio display shows
slots_used unmodified over min(slots_total, 4); a slots_total above 4 is
silently shown as 4. -/
theorem mem_slots_capped (st : ViewModel) (data : Frame) (m : MemoryData)
    (u t : ℚ) (hm : data.memory = some m) (hu : m.slots_used = .num u)
    (ht : m.slots_total = .num t) :
    (updateDashboard st data).1.memSlots
      = jsNumRepr u ++ "/" ++ jsNumRepr (min t 4) ∧
    (4 < t → (updateDashboard st data).1.memSlots
      = jsNumRepr u ++ "/" ++ jsNumRepr 4) := by
  have hs := ud_memSlice st data
  rw [hm] at hs
  simp only [memSlice, Prod.mk.injEq] at hs
  obtain ⟨e1, e2, e3, e4, e5, e6, e7, e8, e9⟩ := hs
  have hms : (updateDashboard st data).1.memSlots
      = JSVal.interp (.num u) ++ "/" ++ jsMin4Str (.num t) := by
    rw [e5]
    simp only [applyMemoryOpt, catGate, hu, ht]
  constructor
  · rw [hms]
    rfl
  · intro h4
    rw [hms]
    have hmin : min t 4 = 4 := min_eq_right (le_of_lt h4)
    simp [jsMin4Str, JSVal.interp, hmin]

/-- Witness for C10: slots_total 6 with slots_used 2 renders 2 over 4. -/
theorem mem_slots_capped_witness :
    (updateDashboard vm0 frameMemSlots).1.memSlots = "2/4" := by
  have h := (mem_slots_capped vm0 frameMemSlots
      { slots_used := JSVal.num 2, slots_total := JSVal.num 6 } 2 6 rfl rfl rfl).2
      (by norm_num)
  rw [h]
  with_unfolding_all rfl

/-- C5: in every reachable manager state at most one live socket and at
most one pending reconnect timer exist; every close event schedules exactly
one timer stamped with the close time, timers are created by close events
only, and when a timer fires — never sooner than 2000 ms after its close —
no stale live socket or other timer exists, and the fire consumes the one
timer and starts exactly one fresh connection. -/
theorem single_socket_single_timer (s : ConnState) (hs : ConnReachable s) :
    (liveCount s.socks ≤ 1 ∧ s.timers.length ≤ 1) ∧
    (∀ (i : ℕ) (s2 : ConnState), CStep s (.sockClosed i) s2 →
      s2.timers = s.timers ++ [s.now]) ∧
    (∀ (e : CEvent) (s2 : ConnState), CStep s e s2 → ∀ t2 ∈ s2.timers,
      t2 ∈ s.timers ∨ ∃ i, e = .sockClosed i ∧ t2 = s.now) ∧
    (∀ (t : ℕ) (s2 : ConnState), CStep s (.timerFired t) s2 →
      t + 2000 ≤ s.now ∧ liveCount s.socks = 0 ∧ s.timers = [t] ∧
      s2.socks = s.socks ++ [SockPhase.connecting] ∧ s2.timers = []) := by
  have hinv := conn_reachable_inv s hs
  unfold connInv at hinv
  refine ⟨⟨by omega, by omega⟩, ?_, ?_, ?_⟩
  · intro i s2 hstep
    cases hstep
    rfl
  · intro e s2 hstep t2 ht2
    cases hstep with
    | sockOpened i h => exact Or.inl ht2
    | sockClosed i ph h hl =>
      simp only [List.mem_append, List.mem_singleton] at ht2
      cases ht2 with
      | inl hmem => exact Or.inl hmem
      | inr heq => exact Or.inr ⟨i, rfl, heq⟩
    | sockErrored i ph h hl => exact Or.inl ht2
    | timerFired t ht hd =>
      exact Or.inl (List.mem_of_mem_erase ht2)
    | timePassed d => exact Or.inl ht2
  · intro t s2 hstep
    cases hstep with
    | timerFired t2 ht hd =>
      have hpos : 0 < s.timers.length := List.length_pos_of_mem ht
      have hlen : s.timers.length = 1 := by omega
      obtain ⟨x, hx⟩ := List.length_eq_one.mp hlen
      rw [hx] at ht
      simp only [List.mem_singleton] at ht
      subst ht
      refine ⟨hd, by omega, hx, rfl, ?_⟩
      show (s.timers.erase t) = []
      rw [hx]
      simp

/-- Witness for C5: the invariant instantiated at the initial state, and a
concrete close step out of it scheduling exactly one timer. -/
theorem single_socket_single_timer_witness :
    (liveCount connInit.socks ≤ 1 ∧ connInit.timers.length ≤ 1) ∧
    (CStep connInit (.sockClosed 0)
        { connInit with socks := connInit.socks.set 0 .closed,
                        timers := connInit.timers ++ [connInit.now] } →
      ({ connInit with socks := connInit.socks.set 0 .closed,
                       timers := connInit.timers ++ [connInit.now] } : ConnState).timers
        = connInit.timers ++ [connInit.now]) :=
  ⟨(single_socket_single_timer connInit ConnReachable.init).1,
   fun hstep =>
     (single_socket_single_timer connInit ConnReachable.init).2.1 0 _ hstep⟩

end PCMon
